import Mathlib

/-!
Verification of the natural-language specification of the HA-core repository
fragment against its source, by a shallow embedding in Lean 4.

The fragment consists of:
* `homeassistant/components/homeassistant_sky_connect/__init__.py`
  (`_async_usb_scan_done`),
* `homeassistant/components/assist_satellite/websocket_api.py`
  (`websocket_intercept_wake_word` and its inner task `intercept_wake_word`),
* `homeassistant/components/voip/assist_satellite.py`
  (`VoipAssistSatellite`: `on_chunk`, `_run_pipeline`, `on_pipeline_event`,
  `_send_tts`, `_clear_audio_queue`).

Pure decision logic is translated to Lean functions; the effect of each
`async` function is modelled as the list of externally visible actions it
performs together with its result, and the satellite's mutable fields are
modelled as an explicit state record with a step function over the events
that mutate it.
-/

/- ----------------------------------------------------------------------
homeassistant_sky_connect/__init__.py : `_async_usb_scan_done`
---------------------------------------------------------------------- -/

/-- USB service info built from the config entry's data by
`get_usb_service_info(entry)` (util module).  The claims only pass it
through unchanged, so its fields mirror the entry data used at
`__init__.py` lines 22-29. -/
structure UsbServiceInfo where
  device : String
  vid : String
  pid : String
  serial_number : String
  manufacturer : String
  description : String
deriving DecidableEq

/-- Hardware variant of the dongle, as returned by `get_hardware_variant(entry)`;
only its `short_name` is read at `__init__.py` line 53. -/
structure HwVariant where
  short_name : String
deriving DecidableEq

/-- The `hw_discovery_data` dictionary built at `__init__.py` lines 52-58. -/
structure HwDiscoveryData where
  name : String
  portPath : String
  radio_type : String
deriving DecidableEq

/-- Externally visible actions `_async_usb_scan_done` can perform:
scheduling removal of the config entry (lines 33-35), initiating the zha
config flow from USB service info (lines 44-48), or creating the zha
hardware discovery flow (lines 59-64). -/
inductive SkyAction where
  | removeEntry (entryId : String)
  | zhaUsbFlow (source : String) (data : UsbServiceInfo)
  | zhaDiscoveryFlow (source : String) (data : HwDiscoveryData)
deriving DecidableEq

/-- Whether a `SkyAction` starts a discovery/config flow. -/
def SkyAction.startsFlow : SkyAction → Bool
  | SkyAction.removeEntry _ => false
  | SkyAction.zhaUsbFlow _ _ => true
  | SkyAction.zhaDiscoveryFlow _ _ => true

/-- Embedding of `_async_usb_scan_done` (`__init__.py` lines 20-64) as the
list of actions it performs.  Inputs: whether `usb.async_is_plugged_in`
matches (line 31), whether `multi_pan_addon_using_device` holds for the
resolved device path (line 42), the entry id, the entry's USB service info,
the hardware variant, and the zigbee socket path returned by
`get_zigbee_socket()` (line 55).  `SOURCE_HARDWARE` is the string
"hardware". -/
def async_usb_scan_done (pluggedIn : Bool) (addonUsingDevice : Bool)
    (entryId : String) (usbInfo : UsbServiceInfo) (hwVariant : HwVariant)
    (zigbeeSocket : String) : List SkyAction :=
  if pluggedIn = false then
    [SkyAction.removeEntry entryId]
  else if addonUsingDevice = false then
    [SkyAction.zhaUsbFlow "usb" usbInfo]
  else
    [SkyAction.zhaDiscoveryFlow "hardware"
      { name := hwVariant.short_name ++ " Multiprotocol",
        portPath := zigbeeSocket,
        radio_type := "ezsp" }]

/- ----------------------------------------------------------------------
assist_satellite/websocket_api.py : `websocket_intercept_wake_word`
---------------------------------------------------------------------- -/

/-- Messages the websocket handler and its background task can send on the
client connection. -/
inductive WsMessage where
  | result (id : Nat)
  | event (id : Nat) (wake_word_phrase : String)
  | errorMsg (id : Nat) (code : String) (message : String)
deriving DecidableEq

/-- Whether a websocket message is an event message. -/
def WsMessage.isEvent : WsMessage → Bool
  | WsMessage.event _ _ => true
  | _ => false

/-- Outcome of awaiting `satellite.async_intercept_wake_word()`
(external call): either a wake word phrase, or a raised
`HomeAssistantError` with its string form. -/
inductive WakeOutcome where
  | success (phrase : String)
  | haError (message : String)
deriving DecidableEq

/-- Embedding of the inner background task `intercept_wake_word`
(`websocket_api.py` lines 46-57) as the list of messages it sends:
on success, one event message with the wake word phrase; on
`HomeAssistantError`, one error message with code "home_assistant_error"
and the error's string. -/
def intercept_wake_word (msgId : Nat) (outcome : WakeOutcome) : List WsMessage :=
  match outcome with
  | WakeOutcome.success phrase => [WsMessage.event msgId phrase]
  | WakeOutcome.haError m => [WsMessage.errorMsg msgId "home_assistant_error" m]

/-- Result of running the handler: messages sent synchronously, the
subscription slot written (`connection.subscriptions[msg["id"]] = task.cancel`,
line 62), whether a background task was started (lines 59-61), and the
messages that task sends when it runs. -/
structure HandlerResult where
  sentMessages : List WsMessage
  subscription : Option Nat
  taskStarted : Bool
  taskMessages : List WsMessage
deriving DecidableEq

/-- Embedding of `websocket_intercept_wake_word` (`websocket_api.py`
lines 32-63).  `entityFound` is whether `component.get_entity(msg["entity_id"])`
returned an entity (line 39); `outcome` is the eventual result of the
satellite's `async_intercept_wake_word` awaited inside the background task.
When the entity is missing the handler sends `ERR_NOT_FOUND` ("not_found")
and returns (lines 40-44); otherwise it starts the background task, stores
its cancel under the message id, and sends a result message (lines 59-63). -/
def websocket_intercept_wake_word (msgId : Nat) (entityFound : Bool)
    (outcome : WakeOutcome) : HandlerResult :=
  if entityFound = false then
    { sentMessages := [WsMessage.errorMsg msgId "not_found" "Entity not found"],
      subscription := none,
      taskStarted := false,
      taskMessages := [] }
  else
    { sentMessages := [WsMessage.result msgId],
      subscription := some msgId,
      taskStarted := true,
      taskMessages := intercept_wake_word msgId outcome }

/- ----------------------------------------------------------------------
Theorems for claims C5, C10 (sky connect) and C6, C9 (websocket)
---------------------------------------------------------------------- -/

/-- Claim C5: when the initial USB scan completes and the dongle is plugged
in, `_async_usb_scan_done` starts exactly one of two discovery flows chosen
by whether the multiprotocol add-on is using the device: if not, a zha
config flow with source "usb" and the entry's USB service info; if so, a
zha discovery flow with source hardware whose data has radio_type "ezsp"
and carries the hardware variant's name. -/
theorem usb_scan_done_flow_choice (addonUsingDevice : Bool) (entryId : String)
    (usbInfo : UsbServiceInfo) (hwVariant : HwVariant) (zigbeeSocket : String) :
    ((async_usb_scan_done true addonUsingDevice entryId usbInfo hwVariant
        zigbeeSocket).countP (fun a => SkyAction.startsFlow a) = 1)
    ∧ (async_usb_scan_done true addonUsingDevice entryId usbInfo hwVariant
        zigbeeSocket
        = if addonUsingDevice then
            [SkyAction.zhaDiscoveryFlow "hardware"
              { name := hwVariant.short_name ++ " Multiprotocol",
                portPath := zigbeeSocket,
                radio_type := "ezsp" }]
          else [SkyAction.zhaUsbFlow "usb" usbInfo]) := by
  cases addonUsingDevice <;>
    simp [async_usb_scan_done, SkyAction.startsFlow, List.countP_cons]

/-- Claim C10: if the dongle matching the entry is not plugged in when the
initial USB scan completes, `_async_usb_scan_done` schedules removal of the
config entry and starts no discovery flow. -/
theorem usb_scan_done_not_plugged (addonUsingDevice : Bool) (entryId : String)
    (usbInfo : UsbServiceInfo) (hwVariant : HwVariant) (zigbeeSocket : String) :
    async_usb_scan_done false addonUsingDevice entryId usbInfo hwVariant
        zigbeeSocket = [SkyAction.removeEntry entryId]
    ∧ ((async_usb_scan_done false addonUsingDevice entryId usbInfo hwVariant
        zigbeeSocket).countP (fun a => SkyAction.startsFlow a) = 0) := by
  simp [async_usb_scan_done, SkyAction.startsFlow, List.countP_cons]

/-- Claim C6: for an `intercept_wake_word` request naming a registered
satellite entity, the handler stores the background task's cancel under the
message id in the subscriptions, starts the task, sends exactly a result
message, and when the satellite intercepts a wake word the task forwards
exactly one event message carrying the wake word phrase. -/
theorem intercept_wake_word_happy_path (msgId : Nat) (phrase : String) :
    (websocket_intercept_wake_word msgId true
        (WakeOutcome.success phrase)).subscription = some msgId
    ∧ (websocket_intercept_wake_word msgId true
        (WakeOutcome.success phrase)).taskStarted = true
    ∧ (websocket_intercept_wake_word msgId true
        (WakeOutcome.success phrase)).sentMessages = [WsMessage.result msgId]
    ∧ (websocket_intercept_wake_word msgId true
        (WakeOutcome.success phrase)).taskMessages
        = [WsMessage.event msgId phrase]
    ∧ ((websocket_intercept_wake_word msgId true
        (WakeOutcome.success phrase)).taskMessages.countP
          (fun m => WsMessage.isEvent m) = 1) := by
  simp [websocket_intercept_wake_word, intercept_wake_word, WsMessage.isEvent,
    List.countP_cons]

/-- Claim C9: if `async_intercept_wake_word` raises a `HomeAssistantError`,
the background task sends one error message with code "home_assistant_error"
and the error's string, and no wake-word event message is sent for that
request. -/
theorem intercept_wake_word_error_path (msgId : Nat) (m : String) :
    intercept_wake_word msgId (WakeOutcome.haError m)
      = [WsMessage.errorMsg msgId "home_assistant_error" m]
    ∧ ((intercept_wake_word msgId (WakeOutcome.haError m)).countP
        (fun x => WsMessage.isEvent x) = 0)
    ∧ ((websocket_intercept_wake_word msgId true
        (WakeOutcome.haError m)).taskMessages.countP
        (fun x => WsMessage.isEvent x) = 0) := by
  simp [intercept_wake_word, websocket_intercept_wake_word, WsMessage.isEvent,
    List.countP_cons]

/- ----------------------------------------------------------------------
voip/assist_satellite.py : constants and `_send_tts`
---------------------------------------------------------------------- -/

/-- Modelled from the spec: `RATE` comes from the voip `const` module, which
is not under src/; the code comments in `assist_satellite.py` (lines 303 and
342) state the audio format as "16Khz 16-bit mono", giving a sample rate of
16000 Hz. -/
def RATE : Nat := 16000

/-- Modelled from the spec: `WIDTH` comes from the voip `const` module, which
is not under src/; the "16-bit" in the code comments gives a sample width of
2 bytes. -/
def WIDTH : Nat := 2

/-- Modelled from the spec: `CHANNELS` comes from the voip `const` module,
which is not under src/; the "mono" in the code comments gives 1 channel. -/
def CHANNELS : Nat := 1

/-- `_PIPELINE_TIMEOUT_SEC` (`assist_satellite.py` line 43), in seconds. -/
def PIPELINE_TIMEOUT_SEC : ℚ := 30

/-- `self._tts_extra_timeout` set in `__init__` (line 106), in seconds. -/
def tts_extra_timeout : ℚ := 1

/-- The deadline `_send_tts` wraps the RTP send in (lines 298-302):
`tts_samples = len(audio_bytes) / (WIDTH * CHANNELS)`,
`tts_seconds = tts_samples / RATE`, and the timeout is
`tts_seconds + self._tts_extra_timeout`. -/
def tts_deadline (audioLen : Nat) : ℚ :=
  ((audioLen : ℚ) / ((WIDTH : ℚ) * (CHANNELS : ℚ))) / (RATE : ℚ) + tts_extra_timeout

/-- Inputs determining one execution of `_send_tts` (lines 260-313):
whether `self.transport` is set (line 263), the extension and WAV parameters
returned by `tts.async_get_media_source_audio` and the `wave` reader
(lines 266-282), the length of `audio_bytes` (line 294), and the time the
wrapped `_async_send_audio` call would take (line 304). -/
structure SendTtsInput where
  transportConnected : Bool
  ext : String
  sampleRate : Nat
  sampleWidth : Nat
  sampleChannels : Nat
  audioLen : Nat
  sendDuration : ℚ
deriving DecidableEq

/-- How one execution of `_send_tts` terminates: the early `return` when the
transport is unset (line 264), the `ValueError` for a non-WAV extension
(line 272), the `ValueError` for mismatched rate/width/channels
(lines 284-292), the re-raised `TimeoutError` when the send exceeds the
deadline (lines 305-307), or normal completion. -/
inductive SendTtsOutcome where
  | earlyReturn
  | valueErrorFormat
  | valueErrorParams
  | timeoutError
  | ok
deriving DecidableEq

/-- Observable result of `_send_tts`: how it terminated, and whether the
`finally` block's two effects happened (`self._tts_done.set()` at line 310
and `self.tts_response_finished()` at line 313). -/
structure SendTtsResult where
  outcome : SendTtsOutcome
  ttsDoneSet : Bool
  ttsResponseFinishedCalled : Bool
deriving DecidableEq

/-- The `finally` block of `_send_tts` (lines 308-313): on every exit path it
sets `_tts_done` and calls `tts_response_finished`. -/
def sendTtsFinally (o : SendTtsOutcome) : SendTtsResult :=
  { outcome := o, ttsDoneSet := true, ttsResponseFinishedCalled := true }

/-- Embedding of `_send_tts` (lines 260-313).  The checks are performed in
source order inside the `try`: transport unset, non-WAV extension,
rate/width/channels mismatch, then the RTP send wrapped in
`asyncio.timeout(tts_seconds + self._tts_extra_timeout)`, which raises
`TimeoutError` exactly when the send exceeds the deadline.  Every path runs
the `finally` block (the early `return` is inside the `try`, and the
`except TimeoutError` re-raises). -/
def send_tts (i : SendTtsInput) : SendTtsResult :=
  if i.transportConnected = false then
    sendTtsFinally SendTtsOutcome.earlyReturn
  else if i.ext ≠ "wav" then
    sendTtsFinally SendTtsOutcome.valueErrorFormat
  else if i.sampleRate ≠ RATE ∨ i.sampleWidth ≠ WIDTH ∨ i.sampleChannels ≠ CHANNELS then
    sendTtsFinally SendTtsOutcome.valueErrorParams
  else if tts_deadline i.audioLen < i.sendDuration then
    sendTtsFinally SendTtsOutcome.timeoutError
  else
    sendTtsFinally SendTtsOutcome.ok

/- ----------------------------------------------------------------------
voip/assist_satellite.py : `_run_pipeline` as a timed action trace
---------------------------------------------------------------------- -/

/-- Call sites executed by one run of `_run_pipeline` (lines 170-224), in
order: `async_set_config` (lines 175-186), the `_play_tone(Tones.LISTENING)`
call (line 189), `_async_accept_pipeline_from_satellite` (lines 197-202),
then either the `_play_tone(Tones.ERROR)` call (line 206) or
`self._tts_done.wait()` (line 212); on cancellation or timeout,
`self.disconnect()` (line 220) and `_clear_audio_queue` (line 221).
`_play_tone` itself checks whether the tone is enabled (line 323); with the
constructor's default `tones`, all three tones are enabled. -/
inductive RunAction where
  | setConfig
  | playListeningTone
  | acceptPipeline
  | playErrorTone
  | waitTtsDone
  | disconnectCall
  | clearQueue
deriving DecidableEq

/-- How the awaited `_async_accept_pipeline_from_satellite` call terminates
on its own: normally, raising `PipelineNotFound`, or raising
`asyncio.CancelledError` (caller hangs up and the task is cancelled). -/
inductive AcceptOutcome where
  | ok
  | notFound
  | cancelled
deriving DecidableEq

/-- How one run of `_run_pipeline` terminates: normal completion (line 214),
the `PipelineNotFound` handler (lines 215-216), or the
`CancelledError`/`TimeoutError` handler (lines 217-221). -/
inductive RunOutcome where
  | completed
  | notFoundWarned
  | cancelledOrTimedOut
deriving DecidableEq

/-- Inputs determining one run of `_run_pipeline`: the time spent before the
`try` block (config update and listening tone), how the pipeline-accept call
terminates and how long it would take, whether `_pipeline_had_error` was set
by an ERROR event during the run, how long `_tts_done.wait()` would take,
and how long the error tone takes to play. -/
structure RunPipelineInput where
  preDuration : ℚ
  acceptOutcome : AcceptOutcome
  acceptDuration : ℚ
  hadError : Bool
  ttsWaitDuration : ℚ
  errorToneDuration : ℚ
deriving DecidableEq

/-- Observable result of one run of `_run_pipeline`: how it terminated, the
call sites executed, the total elapsed time, the final value of
`_pipeline_had_error`, and whether the `finally` block cleared
`_pipeline_task` (lines 222-224). -/
structure RunPipelineResult where
  outcome : RunOutcome
  actions : List RunAction
  totalDuration : ℚ
  hadErrorFinal : Bool
  pipelineTaskCleared : Bool
deriving DecidableEq

/-- Embedding of `_run_pipeline` (lines 170-224).  The
`asyncio.timeout(_PIPELINE_TIMEOUT_SEC)` block (line 196) wraps only the
`_async_accept_pipeline_from_satellite` call, so `TimeoutError` fires
exactly when that call alone would exceed 30 seconds; the branch on
`_pipeline_had_error` (lines 204-212) and the `_tts_done.wait()` are outside
the timeout block.  On `TimeoutError` or `CancelledError` the handler
disconnects and clears the audio queue; the `finally` block always resets
`_pipeline_task` to None. -/
def run_pipeline (i : RunPipelineInput) : RunPipelineResult :=
  if PIPELINE_TIMEOUT_SEC < i.acceptDuration ∨ i.acceptOutcome = AcceptOutcome.cancelled then
    { outcome := RunOutcome.cancelledOrTimedOut,
      actions := [RunAction.setConfig, RunAction.playListeningTone,
        RunAction.acceptPipeline, RunAction.disconnectCall, RunAction.clearQueue],
      totalDuration := i.preDuration + min i.acceptDuration PIPELINE_TIMEOUT_SEC,
      hadErrorFinal := i.hadError,
      pipelineTaskCleared := true }
  else if i.acceptOutcome = AcceptOutcome.notFound then
    { outcome := RunOutcome.notFoundWarned,
      actions := [RunAction.setConfig, RunAction.playListeningTone,
        RunAction.acceptPipeline],
      totalDuration := i.preDuration + i.acceptDuration,
      hadErrorFinal := i.hadError,
      pipelineTaskCleared := true }
  else if i.hadError then
    { outcome := RunOutcome.completed,
      actions := [RunAction.setConfig, RunAction.playListeningTone,
        RunAction.acceptPipeline, RunAction.playErrorTone],
      totalDuration := i.preDuration + i.acceptDuration + i.errorToneDuration,
      hadErrorFinal := false,
      pipelineTaskCleared := true }
  else
    { outcome := RunOutcome.completed,
      actions := [RunAction.setConfig, RunAction.playListeningTone,
        RunAction.acceptPipeline, RunAction.waitTtsDone],
      totalDuration := i.preDuration + i.acceptDuration + i.ttsWaitDuration,
      hadErrorFinal := false,
      pipelineTaskCleared := true }

/- ----------------------------------------------------------------------
voip/assist_satellite.py : satellite state machine
(`on_chunk`, `_clear_audio_queue`, `on_pipeline_event`, task lifecycle)
---------------------------------------------------------------------- -/

/-- Pipeline event types dispatched on in `on_pipeline_event`
(lines 238, 244, 256); every other type falls through. -/
inductive PipelineEventType where
  | sttEnd
  | ttsEnd
  | error
  | other
deriving DecidableEq

/-- A pipeline event as seen by `on_pipeline_event`: its type, whether
`event.data` is non-empty (the guard at lines 235-236), and, for TTS_END,
whether `event.data["tts_output"]` is truthy (line 246). -/
structure PipelineEventM where
  type : PipelineEventType
  dataNonempty : Bool
  ttsOutputNonempty : Bool
deriving DecidableEq

/-- Mutable state of one `VoipAssistSatellite` (fields set in `__init__`,
lines 101-109): whether `_pipeline_task` is set, the number of
`_run_pipeline` tasks currently in flight (a derived quantity: each
`async_create_background_task` at lines 162-166 adds one, each task removes
itself when it ends), the contents of `_audio_queue`, `_pipeline_had_error`,
`_tts_done`, and `_processing_tone_done`. -/
structure SatState where
  pipelineTask : Bool
  running : Nat
  audioQueue : List Nat
  pipelineHadError : Bool
  ttsDone : Bool
  processingToneDone : Bool
deriving DecidableEq

/-- Initial satellite state after `__init__` (lines 101-109): empty queue,
no pipeline task, no recorded error, both events unset. -/
def initState : SatState :=
  { pipelineTask := false, running := 0, audioQueue := [],
    pipelineHadError := false, ttsDone := false, processingToneDone := false }

/-- Number of `_run_pipeline` tasks currently in flight. -/
def inFlight (s : SatState) : Nat := s.running

/-- `_clear_audio_queue` (lines 226-229): drain the queue. -/
def clear_audio_queue (s : SatState) : SatState :=
  { s with audioQueue := [] }

/-- `on_chunk` (lines 156-168): when `_pipeline_task` is None, clear the
audio queue and create a new `_run_pipeline` background task; in every case
`put_nowait` the chunk onto the queue. -/
def on_chunk (s : SatState) (c : Nat) : SatState :=
  if s.pipelineTask then
    { s with audioQueue := s.audioQueue ++ [c] }
  else
    { s with audioQueue := [c], pipelineTask := true, running := s.running + 1 }

/-- `on_pipeline_event` (lines 231-258): return unchanged when `event.data`
is empty; on STT_END clear `_processing_tone_done` and spawn the processing
tone task (the tones default enables it); on TTS_END with an empty
`tts_output` set `_tts_done` (a non-empty `tts_output` spawns the
`_send_tts` task, whose `finally` later sets `_tts_done` — modelled by the
`sendTtsTaskDone` event below); on ERROR set `_pipeline_had_error`. -/
def on_pipeline_event (s : SatState) (e : PipelineEventM) : SatState :=
  if e.dataNonempty = false then
    s
  else
    match e.type with
    | PipelineEventType.sttEnd => { s with processingToneDone := false }
    | PipelineEventType.ttsEnd =>
        if e.ttsOutputNonempty then s else { s with ttsDone := true }
    | PipelineEventType.error => { s with pipelineHadError := true }
    | PipelineEventType.other => s

/-- The path on which a `_run_pipeline` task leaves its `try` block and
reaches the `finally` (lines 191-224): normal completion, the
`PipelineNotFound` handler, the `CancelledError` handler, or the
`TimeoutError` handler. -/
inductive ExitPath where
  | normal
  | notFound
  | cancelled
  | timedOut
deriving DecidableEq

/-- Events that mutate the satellite state: an RTP chunk arriving
(`on_chunk`), the pipeline consumer dequeuing one chunk
(`queue_to_iterable`, line 199), a pipeline lifecycle event, the processing
tone task finishing (`_play_tone`, lines 338-339), the `_send_tts` task's
`finally` setting `_tts_done` (line 310), or an in-flight `_run_pipeline`
task ending on one of its exit paths. -/
inductive SatEvent where
  | chunk (c : Nat)
  | consumeChunk
  | pipelineEvent (e : PipelineEventM)
  | processingTonePlayed
  | sendTtsTaskDone
  | pipelineFinish (p : ExitPath)
deriving DecidableEq

/-- One atomic state change of the satellite.  `pipelineFinish p` models an
in-flight `_run_pipeline` task reaching its `finally` block via path `p`:
on the normal path `_pipeline_had_error` ends up False (either it was
already False, or lines 204-205 reset it); on cancellation/timeout the
handler clears the audio queue (line 221); on every path the `finally`
(lines 222-224) sets `_pipeline_task = None`.  The event is a no-op when no
task is in flight, since then no task exists to finish. -/
def satStep (s : SatState) (e : SatEvent) : SatState :=
  match e with
  | SatEvent.chunk c => on_chunk s c
  | SatEvent.consumeChunk => { s with audioQueue := s.audioQueue.tail }
  | SatEvent.pipelineEvent ev => on_pipeline_event s ev
  | SatEvent.processingTonePlayed => { s with processingToneDone := true }
  | SatEvent.sendTtsTaskDone => { s with ttsDone := true }
  | SatEvent.pipelineFinish p =>
      if s.running = 0 then s
      else
        match p with
        | ExitPath.normal =>
            { s with
              pipelineHadError := false
              pipelineTask := false
              running := s.running - 1 }
        | ExitPath.notFound =>
            { s with pipelineTask := false, running := s.running - 1 }
        | ExitPath.cancelled =>
            { s with
              audioQueue := []
              pipelineTask := false
              running := s.running - 1 }
        | ExitPath.timedOut =>
            { s with
              audioQueue := []
              pipelineTask := false
              running := s.running - 1 }

/-- Run the satellite from a state through a sequence of events. -/
def runSat (s : SatState) (evs : List SatEvent) : SatState :=
  evs.foldl satStep s

/-- Coupling invariant: a `_run_pipeline` task is in flight exactly when
`_pipeline_task` is set. -/
def SatInv (s : SatState) : Prop :=
  s.running = if s.pipelineTask then 1 else 0

theorem satInv_init : SatInv initState := rfl

theorem satInv_step (s : SatState) (e : SatEvent) (h : SatInv s) :
    SatInv (satStep s e) := by
  unfold SatInv at h ⊢
  cases e with
  | chunk c =>
      unfold satStep on_chunk
      by_cases hp : s.pipelineTask
      · simp [hp] at h ⊢; exact h
      · simp [hp] at h ⊢; exact h
  | consumeChunk => simpa [satStep] using h
  | pipelineEvent ev =>
      unfold satStep on_pipeline_event
      by_cases hd : ev.dataNonempty = false
      · simp [hd]; exact h
      · simp [hd]
        cases ev.type with
        | sttEnd => exact h
        | ttsEnd =>
            by_cases ht : ev.ttsOutputNonempty <;> simp [ht] <;> exact h
        | error => exact h
        | other => exact h
  | processingTonePlayed => simpa [satStep] using h
  | sendTtsTaskDone => simpa [satStep] using h
  | pipelineFinish p =>
      simp only [satStep]
      by_cases hr : s.running = 0
      · have hp : s.pipelineTask = false := by
          cases hpb : s.pipelineTask
          · rfl
          · rw [hpb] at h
            simp at h
            rw [h] at hr
            exact absurd hr (by simp)
        simp [hr, hp]
      · have hp : s.pipelineTask = true := by
          cases hpb : s.pipelineTask
          · rw [hpb] at h
            simp at h
            exact absurd h hr
          · rfl
        rw [hp] at h
        simp at h
        simp only [if_neg hr]
        cases p <;> simp [h]

theorem satInv_run (evs : List SatEvent) (s : SatState) (h : SatInv s) :
    SatInv (runSat s evs) := by
  induction evs generalizing s with
  | nil => exact h
  | cons e rest ih => exact ih (satStep s e) (satInv_step s e h)

theorem runSat_cons (s : SatState) (e : SatEvent) (evs : List SatEvent) :
    runSat s (e :: evs) = runSat (satStep s e) evs := rfl

theorem satInv_cases (s : SatState) (h : SatInv s) :
    (s.pipelineTask = false ∧ s.running = 0)
    ∨ (s.pipelineTask = true ∧ s.running = 1) := by
  unfold SatInv at h
  cases hp : s.pipelineTask
  · left
    refine ⟨rfl, ?_⟩
    rw [hp] at h
    simpa using h
  · right
    refine ⟨rfl, ?_⟩
    rw [hp] at h
    simpa using h

theorem finish_clears (s : SatState) (h : SatInv s) (p : ExitPath) :
    (satStep s (SatEvent.pipelineFinish p)).pipelineTask = false
    ∧ (satStep s (SatEvent.pipelineFinish p)).running = 0 := by
  simp only [satStep]
  rcases satInv_cases s h with ⟨hp, hr⟩ | ⟨hp, hr⟩
  · simp [hr, hp]
  · have hr0 : ¬ s.running = 0 := by rw [hr]; simp
    simp only [if_neg hr0]
    cases p <;> simp [hr]

/-- Claim C1: for every reachable state of a `VoipAssistSatellite`, at most
one `_run_pipeline` task is in flight; moreover a finishing task clears
`_pipeline_task` on every exit path, after which a later `on_chunk` starts a
new cycle with exactly one task in flight again. -/
theorem pipeline_task_single_flight :
    (∀ evs : List SatEvent, inFlight (runSat initState evs) ≤ 1)
    ∧ (∀ evs : List SatEvent, ∀ p : ExitPath,
        (satStep (runSat initState evs) (SatEvent.pipelineFinish p)).pipelineTask
          = false)
    ∧ (∀ evs : List SatEvent, ∀ p : ExitPath, ∀ c : Nat,
        inFlight (satStep (satStep (runSat initState evs) (SatEvent.pipelineFinish p))
          (SatEvent.chunk c)) = 1) := by
  refine ⟨?_, ?_, ?_⟩
  · intro evs
    have h := satInv_run evs initState satInv_init
    rcases satInv_cases _ h with ⟨_, hr⟩ | ⟨_, hr⟩ <;> simp [inFlight, hr]
  · intro evs p
    exact (finish_clears (runSat initState evs) (satInv_run evs initState satInv_init) p).1
  · intro evs p c
    obtain ⟨hp, hr⟩ :=
      finish_clears (runSat initState evs) (satInv_run evs initState satInv_init) p
    set t := satStep (runSat initState evs) (SatEvent.pipelineFinish p) with ht
    show inFlight (satStep t (SatEvent.chunk c)) = 1
    simp [inFlight, satStep, on_chunk, hp, hr]

theorem on_chunk_inflight (s : SatState) (c : Nat) (h : s.pipelineTask = true) :
    ((on_chunk s c).audioQueue.length = s.audioQueue.length + 1)
    ∧ (on_chunk s c).pipelineTask = true := by
  simp [on_chunk, h]

theorem runSat_replicate_chunk (k : Nat) (s : SatState) (h : s.pipelineTask = true) :
    (runSat s (List.replicate k (SatEvent.chunk 0))).audioQueue.length
      = s.audioQueue.length + k := by
  induction k generalizing s with
  | zero => simp [runSat]
  | succ n ih =>
      rw [List.replicate_succ, runSat_cons]
      have hs : satStep s (SatEvent.chunk 0) = on_chunk s 0 := rfl
      rw [hs, ih (on_chunk s 0) (on_chunk_inflight s 0 h).2,
        (on_chunk_inflight s 0 h).1]
      omega

theorem queue_len_after_chunks (cap : Nat) :
    (runSat initState
      (List.replicate (cap + 1) (SatEvent.chunk 0))).audioQueue.length = cap + 1 := by
  rw [List.replicate_succ, runSat_cons]
  have h1 : (satStep initState (SatEvent.chunk 0)).pipelineTask = true := rfl
  have h2 : (satStep initState (SatEvent.chunk 0)).audioQueue.length = 1 := rfl
  rw [runSat_replicate_chunk cap _ h1, h2]
  omega

/-- Claim C2 counterexample: the audio queue has no fixed capacity.
`asyncio.Queue()` at line 101 is created without a `maxsize`, and `on_chunk`
enqueues with `put_nowait` unconditionally (line 168), so for any proposed
capacity a long enough burst of `on_chunk` calls with no pipeline
consumption exceeds it. -/
theorem audio_queue_bounded_cex :
    ¬ ∃ cap : Nat, ∀ evs : List SatEvent,
        (runSat initState evs).audioQueue.length ≤ cap := by
  rintro ⟨cap, hcap⟩
  have h := hcap (List.replicate (cap + 1) (SatEvent.chunk 0))
  rw [queue_len_after_chunks cap] at h
  omega

/-- Claim C2 (amended): the satellite's audio queue is unbounded —
`asyncio.Queue()` is created with no maxsize and `on_chunk` always enqueues
with `put_nowait` — so without pipeline consumption the queue length
exceeds any fixed capacity; boundedness in practice comes only from the
external pipeline consumer draining it. -/
theorem audio_queue_unbounded (cap : Nat) :
    cap < (runSat initState
      (List.replicate (cap + 1) (SatEvent.chunk 0))).audioQueue.length := by
  rw [queue_len_after_chunks cap]
  omega

/-- Concrete input refuting claim C3: the pipeline-accept call returns
normally after 1 second, and the subsequent wait for TTS playback takes
100 seconds. -/
def c3CexInput : RunPipelineInput :=
  { preDuration := 0, acceptOutcome := AcceptOutcome.ok, acceptDuration := 1,
    hadError := false, ttsWaitDuration := 100, errorToneDuration := 0 }

/-- Claim C3 counterexample: a `_run_pipeline` cycle whose accept phase
takes 1 second but whose TTS wait takes 100 seconds completes normally
after more than 30 seconds and is never cancelled or timed out, because
the `asyncio.timeout(30)` block at line 196 wraps only the
`_async_accept_pipeline_from_satellite` call and `_tts_done.wait()`
(line 212) lies outside it. -/
theorem pipeline_timeout_scope_cex :
    (run_pipeline c3CexInput).outcome = RunOutcome.completed
    ∧ PIPELINE_TIMEOUT_SEC < (run_pipeline c3CexInput).totalDuration := by
  unfold run_pipeline
  split_ifs with h1 h2 h3
  · rcases h1 with hlt | hc
    · norm_num [c3CexInput, PIPELINE_TIMEOUT_SEC] at hlt
    · exact AcceptOutcome.noConfusion hc
  · exact AcceptOutcome.noConfusion h2
  · exact Bool.noConfusion h3
  · exact ⟨rfl, by norm_num [c3CexInput, PIPELINE_TIMEOUT_SEC]⟩

/-- Claim C3 (amended): the fixed 30-second deadline applies only to the
pipeline-acceptance phase of `_run_pipeline` (the
`_async_accept_pipeline_from_satellite` call); the cycle is timed out
exactly when that call alone would exceed 30 seconds, while the subsequent
wait for TTS playback is outside this deadline (it is bounded separately,
by the audio-duration-based timeout inside `_send_tts`). -/
theorem pipeline_timeout_accept_only (i : RunPipelineInput)
    (h : i.acceptOutcome ≠ AcceptOutcome.cancelled) :
    ((run_pipeline i).outcome = RunOutcome.cancelledOrTimedOut
      ↔ PIPELINE_TIMEOUT_SEC < i.acceptDuration)
    ∧ (i.acceptOutcome = AcceptOutcome.ok → i.hadError = false →
        i.acceptDuration ≤ PIPELINE_TIMEOUT_SEC →
        (run_pipeline i).outcome = RunOutcome.completed
        ∧ (run_pipeline i).totalDuration
            = i.preDuration + i.acceptDuration + i.ttsWaitDuration) := by
  unfold run_pipeline
  split_ifs with h1 h2 h3
  · have hlt : PIPELINE_TIMEOUT_SEC < i.acceptDuration := by
      rcases h1 with hlt | hc
      · exact hlt
      · exact absurd hc h
    constructor
    · simp [hlt]
    · intro _ _ hle
      exact absurd hlt (not_lt.mpr hle)
  · rw [not_or] at h1
    constructor
    · simp [h1.1]
    · intro ho _ _
      rw [ho] at h2
      exact AcceptOutcome.noConfusion h2
  · rw [not_or] at h1
    constructor
    · simp [h1.1]
    · intro _ he _
      rw [he] at h3
      exact Bool.noConfusion h3
  · rw [not_or] at h1
    constructor
    · simp [h1.1]
    · intro _ _ _
      exact ⟨rfl, rfl⟩

/-- Concrete input for the amended claim C3 witness: the accept phase alone
would take 31 seconds. -/
def c3WitnessInput : RunPipelineInput :=
  { preDuration := 0, acceptOutcome := AcceptOutcome.ok, acceptDuration := 31,
    hadError := false, ttsWaitDuration := 0, errorToneDuration := 0 }

/-- Witness for the amended claim C3 theorem at a concrete input. -/
theorem pipeline_timeout_accept_only_witness :
    ((run_pipeline c3WitnessInput).outcome = RunOutcome.cancelledOrTimedOut
      ↔ PIPELINE_TIMEOUT_SEC < c3WitnessInput.acceptDuration)
    ∧ (c3WitnessInput.acceptOutcome = AcceptOutcome.ok →
        c3WitnessInput.hadError = false →
        c3WitnessInput.acceptDuration ≤ PIPELINE_TIMEOUT_SEC →
        (run_pipeline c3WitnessInput).outcome = RunOutcome.completed
        ∧ (run_pipeline c3WitnessInput).totalDuration
            = c3WitnessInput.preDuration + c3WitnessInput.acceptDuration
              + c3WitnessInput.ttsWaitDuration) :=
  pipeline_timeout_accept_only c3WitnessInput (by decide)

/-- A `_send_tts` input that passes the transport check and all WAV format
checks, leaving only the audio length and the send's duration free. -/
def wavSendInput (audioLen : Nat) (sendDuration : ℚ) : SendTtsInput :=
  { transportConnected := true
    ext := "wav"
    sampleRate := RATE
    sampleWidth := WIDTH
    sampleChannels := CHANNELS
    audioLen := audioLen
    sendDuration := sendDuration }

/-- Claim C4: in `_send_tts`, for audio that passes the transport and WAV
format checks, the RTP send is wrapped in a deadline of exactly
`len(audio_bytes) / (WIDTH * CHANNELS) / RATE` seconds plus the 1-second
`_tts_extra_timeout`, and a `TimeoutError` is raised exactly when the send
exceeds that deadline. -/
theorem tts_deadline_formula (audioLen : Nat) (sendDuration : ℚ) :
    tts_extra_timeout = 1
    ∧ tts_deadline audioLen
        = ((audioLen : ℚ) / ((WIDTH : ℚ) * (CHANNELS : ℚ))) / (RATE : ℚ)
          + tts_extra_timeout
    ∧ ((send_tts (wavSendInput audioLen sendDuration)).outcome
        = SendTtsOutcome.timeoutError
        ↔ tts_deadline audioLen < sendDuration) := by
  refine ⟨rfl, rfl, ?_⟩
  by_cases h : tts_deadline audioLen < sendDuration
  · simp [send_tts, wavSendInput, sendTtsFinally, h]
  · simp [send_tts, wavSendInput, sendTtsFinally, h]

/-- Claim C8: on every exit path of `_send_tts` — successful send, early
return when the transport is unset, the `ValueError` for non-WAV audio or
for mismatched rate/width/channels, and `TimeoutError` — the `finally`
block sets `_tts_done` and calls `tts_response_finished`. -/
theorem send_tts_always_signals (i : SendTtsInput) :
    (send_tts i).ttsDoneSet = true
    ∧ (send_tts i).ttsResponseFinishedCalled = true := by
  unfold send_tts
  split_ifs <;> exact ⟨rfl, rfl⟩

/-- Claim C7 counterexample: a pipeline ERROR event whose `data` is empty is
dropped by the guard at lines 235-236 of `on_pipeline_event`, so the
satellite does not record the error: in the mid-cycle state reached by one
`on_chunk`, such an event leaves `_pipeline_had_error` False. -/
theorem pipeline_error_event_cex :
    (on_pipeline_event (runSat initState [SatEvent.chunk 0])
        { type := PipelineEventType.error, dataNonempty := false,
          ttsOutputNonempty := false }).pipelineHadError = false := by
  rfl

/-- Claim C7 (amended): whenever the pipeline emits an ERROR event with
non-empty data during a cycle, the satellite records the error in
`_pipeline_had_error`, and when the pipeline run then completes normally it
plays the error tone instead of waiting for TTS to finish and resets the
error flag so the next cycle starts clean. -/
theorem pipeline_error_event_drives_error_tone (s : SatState)
    (i : RunPipelineInput)
    (hi : i.acceptOutcome = AcceptOutcome.ok)
    (hdur : i.acceptDuration ≤ PIPELINE_TIMEOUT_SEC)
    (herr : i.hadError = true) :
    (on_pipeline_event s
        { type := PipelineEventType.error, dataNonempty := true,
          ttsOutputNonempty := false }).pipelineHadError = true
    ∧ RunAction.playErrorTone ∈ (run_pipeline i).actions
    ∧ RunAction.waitTtsDone ∉ (run_pipeline i).actions
    ∧ (run_pipeline i).hadErrorFinal = false := by
  refine ⟨rfl, ?_⟩
  unfold run_pipeline
  split_ifs with h1 h2
  · rcases h1 with hlt | hc
    · exact absurd hlt (not_lt.mpr hdur)
    · rw [hi] at hc
      exact AcceptOutcome.noConfusion hc
  · rw [hi] at h2
    exact AcceptOutcome.noConfusion h2
  · exact ⟨by simp, by simp, rfl⟩

/-- Concrete input for the amended claim C7 witness: the accept phase takes
1 second, an ERROR event with data was recorded during the run. -/
def c7WitnessInput : RunPipelineInput :=
  { preDuration := 0, acceptOutcome := AcceptOutcome.ok, acceptDuration := 1,
    hadError := true, ttsWaitDuration := 0, errorToneDuration := 2 }

/-- Witness for the amended claim C7 theorem at a concrete input. -/
theorem pipeline_error_event_drives_error_tone_witness :
    (on_pipeline_event initState
        { type := PipelineEventType.error, dataNonempty := true,
          ttsOutputNonempty := false }).pipelineHadError = true
    ∧ RunAction.playErrorTone ∈ (run_pipeline c7WitnessInput).actions
    ∧ RunAction.waitTtsDone ∉ (run_pipeline c7WitnessInput).actions
    ∧ (run_pipeline c7WitnessInput).hadErrorFinal = false :=
  pipeline_error_event_drives_error_tone initState c7WitnessInput rfl
    (by decide) rfl
